import Mathlib

/-!
Verification of the Python bridge automation service (`src/main.py`).

The source is a FastAPI/Selenium test runner.  We shallowly embed its core:
the Step Executor (`SeleniumExecutor.execute_step`, `_execute_action`,
`_capture_failure_screenshot`) and the Runner (`execute_test`), as pure Lean
functions.  The external browser driver, the wall clock and the filesystem
are abstracted into an explicit environment of `Except`-valued oracles
(`DriverEnv`, `RunEnv`); side effects (sleeps, navigations, screenshot file
writes) are collected into an explicit event list (`Eff`).  Wall-clock
readings are abstracted to `0`: only the presence or absence of the
`duration`/`timestamp` dictionary keys is modelled, via `Option`.  Python
dictionaries are modelled as structures whose possibly-absent keys are
`Option` fields, with `none` standing for both an absent key and a key
holding `None`.
-/

/-- Python exception values raised by the embedded code paths: `ValueError`
(invalid input), `AssertionError` (verify mismatch), `TimeoutException`
(element wait), `WebDriverException` (driver-level fault), `TypeError`.
`type(e).__name__` is `pyName`, `str(e)` is `pyMsg`. -/
inductive PyError where
  | valueError (msg : String)
  | assertionError (msg : String)
  | timeoutException (msg : String)
  | webDriverException (msg : String)
  | typeError (msg : String)
deriving DecidableEq

/-- Python `type(e).__name__` for the modelled exception classes. -/
def pyName : PyError → String
  | .valueError _ => "ValueError"
  | .assertionError _ => "AssertionError"
  | .timeoutException _ => "TimeoutException"
  | .webDriverException _ => "WebDriverException"
  | .typeError _ => "TypeError"

/-- Python `str(e)` for the modelled exception values. -/
def pyMsg : PyError → String
  | .valueError m => m
  | .assertionError m => m
  | .timeoutException m => m
  | .webDriverException m => m
  | .typeError m => m

/-- Python truthiness of an optional string: `None` and `""` are falsy. -/
def pyTruthy : Option String → Bool
  | none => false
  | some s => !(s == "")

/-- Python `a or b` on optional strings (`step.value or step.selector`). -/
def pyOrStr (a b : Option String) : Option String :=
  if pyTruthy a then a else b

/-- Python `a or d` on an optional int (`step.timeout or 10`): `None` and
`0` are falsy and fall back to the default. -/
def pyOrInt (a : Option Int) (d : Int) : Int :=
  match a with
  | some v => if v == 0 then d else v
  | none => d

/-- Checker for the tail of a Python integer literal after its first digit:
digits with single interior underscores (an underscore must be followed by a
digit). -/
def udAfterDigit : List Char → Bool
  | [] => true
  | c :: rest =>
    if c == '_' then
      match rest with
      | [] => false
      | d :: rest2 => d.isDigit && udAfterDigit rest2
    else
      c.isDigit && udAfterDigit rest

/-- Checker for a Python decimal digit run: nonempty, starts with a digit,
single interior underscores allowed. -/
def pyDigitRun (cs : List Char) : Bool :=
  match cs with
  | [] => false
  | c :: rest => c.isDigit && udAfterDigit rest

/-- Numeric value of an ASCII digit character. -/
def digitVal (c : Char) : Nat := c.toNat - '0'.toNat

/-- Value of a digit list read in base 10. -/
def digitsToNat (cs : List Char) : Nat :=
  cs.foldl (fun acc c => acc * 10 + digitVal c) 0

/-- ASCII whitespace accepted around Python integer literals. -/
def isPySpace (c : Char) : Bool :=
  c == ' ' || c == '\t' || c == '\n' || c == '\r' || c == '\x0b' || c == '\x0c'

/-- Strip surrounding whitespace from a char list. -/
def pyStrip (cs : List Char) : List Char :=
  ((cs.dropWhile isPySpace).reverse.dropWhile isPySpace).reverse

/-- Python `int(s)` for decimal string literals: surrounding whitespace is
stripped, an optional sign is allowed, then a digit run with single interior
underscores; `none` models the `ValueError` raised on any other shape.
(Python's `int` also accepts non-ASCII decimal digits; those are outside the
model.) -/
def py_int (s : String) : Option Int :=
  let cs := pyStrip s.data
  match cs with
  | '+' :: rest =>
    if pyDigitRun rest then some (Int.ofNat (digitsToNat (rest.filter (fun c => !(c == '_'))))) else none
  | '-' :: rest =>
    if pyDigitRun rest then some (-(Int.ofNat (digitsToNat (rest.filter (fun c => !(c == '_')))))) else none
  | _ =>
    if pyDigitRun cs then some (Int.ofNat (digitsToNat (cs.filter (fun c => !(c == '_'))))) else none

/-- List starts-with check used by the substring test. -/
def listStarts : List Char → List Char → Bool
  | [], _ => true
  | _ :: _, [] => false
  | a :: as, b :: bs => a == b && listStarts as bs

/-- Substring occurrence over char lists. -/
def listHasSub (needle : List Char) : List Char → Bool
  | [] => listStarts needle []
  | b :: bs => listStarts needle (b :: bs) || listHasSub needle bs

/-- Python `needle in hay` on strings (substring containment). -/
def pyInStr (needle hay : String) : Bool :=
  listHasSub needle.data hay.data

/-- String ends-with check (used to state screenshot-path properties). -/
def strEnds (s suf : String) : Bool :=
  listStarts suf.data.reverse s.data.reverse

/-- One test step, mirroring the `TestStep` pydantic model: dispatching
`action` string, optional selector/value/description, timeout defaulting
to 10 seconds (`none` models an explicit JSON `null`). -/
structure TestStep where
  action : String
  selector : Option String := none
  value : Option String := none
  timeout : Option Int := some 10
  description : Option String := none
deriving DecidableEq

/-- Success dictionary built by `_execute_action`: the generic shape carries
selector/value/duration/timestamp; the `screenshot` action's early-return
shape carries screenshot/duration/timestamp. `none` = key absent or `None`. -/
structure ActionResult where
  step_number : Nat
  action : String
  selector : Option String := none
  value : Option String := none
  duration : Option Nat := none
  timestamp : Option Nat := none
  screenshot : Option String := none
deriving DecidableEq

/-- Step result dictionary returned by `execute_step`.  The passed shape is
the action dictionary plus `status`/`attempt`; the failed shape is built
afresh and has no `duration`, `selector` or `value` keys (`none`). -/
structure StepResult where
  step_number : Nat
  action : String
  status : String
  selector : Option String := none
  value : Option String := none
  duration : Option Nat := none
  timestamp : Option Nat := none
  attempt : Nat
  error : Option String := none
  error_type : Option String := none
  screenshot : Option String := none
deriving DecidableEq

/-- Externally visible events of a run: completed `time.sleep` calls
(recording the slept duration; a sleep that raises on its argument emits no
event), navigations (`driver.get`), and successfully written screenshot
files. -/
inductive Eff where
  | sleep (duration : Option Int)
  | nav (url : Option String)
  | shot (path : String)
deriving DecidableEq

/-- Event is a navigation. -/
def Eff.isNav : Eff → Bool
  | .nav _ => true
  | _ => false

/-- Oracle for the browser driver's behaviour on one attempt: outcome of
`driver.get`, of `WebDriverWait(...).until(visibility_of_element_located)`
(returning the located element's visible text on success), of
`driver.click`, `driver.type`, and `driver.save_screenshot`. -/
structure DriverEnv where
  navOk : Option String → Except PyError Unit
  waitVisible : String → Int → Except PyError String
  clickOk : String → Except PyError Unit
  typeOk : String → String → Except PyError Unit
  shotOk : String → Except PyError Unit

/-- The fixed screenshots output directory. -/
def SCREENSHOTS_DIR : String := "screenshots"

/-- Path of the screenshot written by a successful `screenshot` action. -/
def shot_path (test_id : String) (n : Nat) : String :=
  SCREENSHOTS_DIR ++ "/" ++ test_id ++ "_step_" ++ toString n ++ ".png"

/-- Generic success dictionary of `_execute_action` (step number, action,
selector, value, duration, timestamp). -/
def genericResult (step : TestStep) (n : Nat) : ActionResult :=
  { step_number := n, action := step.action, selector := step.selector,
    value := step.value, duration := some 0, timestamp := some 0 }

/-- Embedding of `SeleniumExecutor._execute_action`: dispatch on the
`action` string, returning the success dictionary or the raised exception,
together with the emitted events.  `time.sleep` validates its argument as
CPython does: `time.sleep(None)` raises `TypeError` and a negative duration
raises `ValueError`; a completed sleep is recorded as an event. -/
def execute_action (env : DriverEnv) (test_id : String) (step : TestStep) (n : Nat) :
    Except PyError ActionResult × List Eff :=
  if step.action == "open_url" then
    match env.navOk (pyOrStr step.value step.selector) with
    | Except.error e => (Except.error e, [Eff.nav (pyOrStr step.value step.selector)])
    | Except.ok _ =>
      (Except.ok (genericResult step n),
       [Eff.nav (pyOrStr step.value step.selector), Eff.sleep (some 1)])
  else if step.action == "click" then
    if pyTruthy step.selector = false then
      (Except.error (PyError.valueError "Selector is required for click action"), [])
    else
      match env.waitVisible (step.selector.getD "") (pyOrInt step.timeout 10) with
      | Except.error e => (Except.error e, [])
      | Except.ok _ =>
        match env.clickOk (step.selector.getD "") with
        | Except.error e => (Except.error e, [])
        | Except.ok _ => (Except.ok (genericResult step n), [])
  else if step.action == "type_text" then
    if pyTruthy step.selector = false || pyTruthy step.value = false then
      (Except.error (PyError.valueError "Selector and value are required for type_text action"), [])
    else
      match env.waitVisible (step.selector.getD "") (pyOrInt step.timeout 10) with
      | Except.error e => (Except.error e, [])
      | Except.ok _ =>
        match env.typeOk (step.selector.getD "") (step.value.getD "") with
        | Except.error e => (Except.error e, [])
        | Except.ok _ => (Except.ok (genericResult step n), [])
  else if step.action == "verify" then
    if pyTruthy step.selector = false then
      (Except.error (PyError.valueError "Selector is required for verify action"), [])
    else
      match env.waitVisible (step.selector.getD "") (pyOrInt step.timeout 10) with
      | Except.error e => (Except.error e, [])
      | Except.ok element_text =>
        if pyTruthy step.value then
          if pyInStr (step.value.getD "") element_text = false then
            (Except.error (PyError.assertionError
              ("Expected \x27" ++ step.value.getD "" ++ "\x27 not found in element text: \x27"
                ++ element_text ++ "\x27")), [])
          else (Except.ok (genericResult step n), [])
        else (Except.ok (genericResult step n), [])
  else if step.action == "wait" then
    if pyTruthy step.value then
      match py_int (step.value.getD "") with
      | some d =>
        if d < 0 then
          (Except.error (PyError.valueError "sleep length must be non-negative"), [])
        else (Except.ok (genericResult step n), [Eff.sleep (some d)])
      | none =>
        (Except.error (PyError.valueError
          ("invalid literal for int() with base 10: \x27" ++ step.value.getD "" ++ "\x27")), [])
    else
      match step.timeout with
      | none =>
        (Except.error (PyError.typeError
          "an integer is required (got type NoneType)"), [])
      | some t =>
        if t < 0 then
          (Except.error (PyError.valueError "sleep length must be non-negative"), [])
        else (Except.ok (genericResult step n), [Eff.sleep (some t)])
  else if step.action == "screenshot" then
    match env.shotOk (shot_path test_id n) with
    | Except.error e => (Except.error e, [])
    | Except.ok _ =>
      (Except.ok { step_number := n, action := step.action,
                   screenshot := some (shot_path test_id n),
                   duration := some 0, timestamp := some 0 },
       [Eff.shot (shot_path test_id n)])
  else
    (Except.error (PyError.valueError ("Unknown action: " ++ step.action)), [])

/-- Path of the failure screenshot taken on the final failed attempt. -/
def fail_shot_path (test_id : String) (n : Nat) : String :=
  SCREENSHOTS_DIR ++ "/" ++ test_id ++ "_step_" ++ toString n ++ "_FAILED.png"

/-- Embedding of `SeleniumExecutor._capture_failure_screenshot`: tries to
save the `_FAILED.png` screenshot; its own fault is swallowed and yields
`None`. -/
def capture_failure_screenshot (env : DriverEnv) (test_id : String) (n : Nat) :
    Option String × List Eff :=
  match env.shotOk (fail_shot_path test_id n) with
  | Except.ok _ => (some (fail_shot_path test_id n), [Eff.shot (fail_shot_path test_id n)])
  | Except.error _ => (none, [])

/-- `max_retries` from `execute_step`. -/
def max_retries : Nat := 2

/-- `retry_delay` (seconds) from `execute_step`. -/
def retry_delay : Int := 2

/-- Passed step dictionary: the action dictionary with `status` and
`attempt` added (`result['attempt'] = attempt + 1; result['status'] =
'passed'`). -/
def passedResult (a : ActionResult) (att : Nat) : StepResult :=
  { step_number := a.step_number, action := a.action, status := "passed",
    selector := a.selector, value := a.value, duration := a.duration,
    timestamp := a.timestamp, attempt := att, screenshot := a.screenshot }

/-- Failed step dictionary built on the final attempt (no `duration`,
`selector` or `value` keys). -/
def failedResult (step : TestStep) (n : Nat) (e : PyError) (shot : Option String)
    (att : Nat) : StepResult :=
  { step_number := n, action := step.action, status := "failed",
    error := some (pyMsg e), error_type := some (pyName e),
    screenshot := shot, attempt := att, timestamp := some 0 }

/-- The retry loop of `execute_step`, one level per remaining retry:
`remaining` counts the retries still available, `attempt` the 0-based
attempt index.  A fault with retries remaining sleeps `retry_delay` and
retries; a fault on the last attempt captures the failure screenshot and
builds the failed dictionary. -/
def execute_step_go (envs : Nat → DriverEnv) (test_id : String) (step : TestStep)
    (n : Nat) : Nat → Nat → StepResult × List Eff
  | 0, attempt =>
    match execute_action (envs attempt) test_id step n with
    | (Except.ok a, effs) => (passedResult a (attempt + 1), effs)
    | (Except.error e, effs) =>
      match capture_failure_screenshot (envs attempt) test_id n with
      | (shot, effs2) => (failedResult step n e shot (attempt + 1), effs ++ effs2)
  | (r + 1), attempt =>
    match execute_action (envs attempt) test_id step n with
    | (Except.ok a, effs) => (passedResult a (attempt + 1), effs)
    | (Except.error _, effs) =>
      match execute_step_go envs test_id step n r (attempt + 1) with
      | (res, effs2) => (res, effs ++ [Eff.sleep (some retry_delay)] ++ effs2)

/-- Embedding of `SeleniumExecutor.execute_step`: up to `max_retries + 1`
attempts over the per-attempt driver oracle `envs`; always returns a step
dictionary, never a fault. -/
def execute_step (envs : Nat → DriverEnv) (test_id : String) (step : TestStep)
    (n : Nat) : StepResult × List Eff :=
  execute_step_go envs test_id step n max_retries 0

/-- The `TestRequest` pydantic model (callback plumbing is out of scope of
the claims). -/
structure TestRequest where
  test_id : String
  url : String
  steps : List TestStep
  browser : String := "chrome"
  headless : Bool := true
  webhook_url : Option String := none

/-- The `TestResult` pydantic model. -/
structure TestResult where
  test_id : String
  status : String
  duration : Nat := 0
  steps_executed : Nat
  steps_passed : Nat
  steps_failed : Nat
  error_message : Option String := none
  screenshot_url : Option String := none
  timestamp : Nat := 0
  detailed_results : List StepResult
deriving DecidableEq

/-- Oracle for one whole run: outcome of the `Driver(...)` construction, the
generated session id (`uuid.uuid4()`, assumed fresh), the initial
`driver.get(request.url)`, the per-step per-attempt driver behaviour, the
ERROR-path `driver.save_screenshot`, and `driver.quit()`. -/
structure RunEnv where
  createDriver : Except PyError Unit
  sessionId : String
  initialNav : Except PyError Unit
  stepEnvs : Nat → Nat → DriverEnv
  errorShot : Except PyError Unit
  quitOk : Except PyError Unit

/-- Outcome of a run: the session registry after the request (the
`active_drivers` keys), the returned `TestResult`, and the emitted events. -/
structure RunOutcome where
  registry : List String
  result : TestResult
  effs : List Eff
deriving DecidableEq

/-- The step loop of `execute_test`: executes every step in order (1-based),
collecting the result list and the passed/failed counters. -/
def run_steps (stepEnvs : Nat → Nat → DriverEnv) (test_id : String) :
    List TestStep → Nat → List StepResult × Nat × Nat × List Eff
  | [], _ => ([], 0, 0, [])
  | step :: rest, idx =>
    match execute_step (stepEnvs idx) test_id step idx with
    | (r, effs) =>
      match run_steps stepEnvs test_id rest (idx + 1) with
      | (rs, p, f, effs2) =>
        if r.status == "passed" then (r :: rs, p + 1, f, effs ++ effs2)
        else (r :: rs, p, f + 1, effs ++ effs2)

/-- The `finally` block of `execute_test`: when a driver exists, try
`driver.quit()` and then delete the registry entries holding this driver;
a fault from `quit` is caught and logged, skipping the deletion.  Distinct
runs hold distinct driver objects, so value-equality deletion is keyed by
this run's session id. -/
def finalize_run (env : RunEnv) (reg : List String) : List String :=
  match env.quitOk with
  | Except.ok _ => reg.filter (fun s => s != env.sessionId)
  | Except.error _ => reg

/-- Path of the best-effort screenshot taken on a run-level fault. -/
def error_shot_path (test_id : String) : String :=
  SCREENSHOTS_DIR ++ "/" ++ test_id ++ "_ERROR.png"

/-- The ERROR-path `TestResult` of `execute_test`. -/
def error_result (req : TestRequest) (e : PyError) (shot : Option String) : TestResult :=
  { test_id := req.test_id, status := "ERROR", duration := 0,
    steps_executed := 0, steps_passed := 0, steps_failed := 0,
    error_message := some (pyName e ++ ": " ++ pyMsg e),
    screenshot_url := shot, timestamp := 0, detailed_results := [] }

/-- Embedding of the `POST /execute-test` handler `execute_test`: create the
driver, register the session, navigate to the starting URL, run every step,
aggregate PASS/FAIL; any run-level fault is caught and converted into an
ERROR result with a best-effort `_ERROR.png` screenshot; the `finally`
block releases the session.  On the ERROR path the code assigns the
`_ERROR.png` path to `screenshot_path` before calling `save_screenshot`
and the bare `except: pass` preserves it, so the path is recorded in the
result whenever the driver exists, even when the capture faults; only a
successful capture emits a file-write event.  The function is total: the
caller always receives exactly one `TestResult`. -/
def execute_test (env : RunEnv) (req : TestRequest) (reg : List String) : RunOutcome :=
  match env.createDriver with
  | Except.error e =>
    { registry := reg, result := error_result req e none, effs := [] }
  | Except.ok _ =>
    match env.initialNav with
    | Except.error e =>
      match env.errorShot with
      | Except.ok _ =>
        { registry := finalize_run env (reg ++ [env.sessionId]),
          result := error_result req e (some (error_shot_path req.test_id)),
          effs := [Eff.nav (some req.url), Eff.shot (error_shot_path req.test_id)] }
      | Except.error _ =>
        { registry := finalize_run env (reg ++ [env.sessionId]),
          result := error_result req e (some (error_shot_path req.test_id)),
          effs := [Eff.nav (some req.url)] }
    | Except.ok _ =>
      match run_steps env.stepEnvs req.test_id req.steps 1 with
      | (rs, p, f, effs2) =>
        { registry := finalize_run env (reg ++ [env.sessionId]),
          result := { test_id := req.test_id,
                      status := if f == 0 then "PASS" else "FAIL",
                      duration := 0, steps_executed := req.steps.length,
                      steps_passed := p, steps_failed := f,
                      timestamp := 0, detailed_results := rs },
          effs := Eff.nav (some req.url) :: effs2 }

/-! Sanity checks of the embedded Python primitives on concrete inputs. -/

example : py_int "42" = some 42 := by decide
example : py_int " -7 " = some (-7) := by decide
example : py_int "1_0" = some 10 := by decide
example : py_int "abc" = none := by decide
example : py_int "" = none := by decide
example : py_int "1__0" = none := by decide
example : pyInStr "Welcome" "Welcome, User" = true := by decide
example : pyInStr "Welcome" "Goodbye" = false := by decide
example : pyInStr "" "anything" = true := by decide
example : strEnds "a_FAILED.png" "_FAILED.png" = true := by decide
example : strEnds "a.png" "_FAILED.png" = false := by decide

/-! Unfolding lemmas for the retry loop: outcome of `execute_step` when the
first attempt succeeds, when all three attempts fault, and when the first
two attempts fault and the third succeeds; then structural facts proved by
induction over the remaining-retries counter. -/

theorem exec_step_first_ok (envs : Nat → DriverEnv) (tid : String) (step : TestStep)
    (n : Nat) (a : ActionResult) (f0 : List Eff)
    (h0 : execute_action (envs 0) tid step n = (Except.ok a, f0)) :
    execute_step envs tid step n = (passedResult a 1, f0) := by
  simp [execute_step, max_retries, execute_step_go, h0]

theorem exec_step_all_fail (envs : Nat → DriverEnv) (tid : String) (step : TestStep)
    (n : Nat) (e0 e1 e2 : PyError) (f0 f1 f2 : List Eff)
    (h0 : execute_action (envs 0) tid step n = (Except.error e0, f0))
    (h1 : execute_action (envs 1) tid step n = (Except.error e1, f1))
    (h2 : execute_action (envs 2) tid step n = (Except.error e2, f2)) :
    execute_step envs tid step n =
      (failedResult step n e2 (capture_failure_screenshot (envs 2) tid n).1 3,
       f0 ++ [Eff.sleep (some retry_delay)] ++
         (f1 ++ [Eff.sleep (some retry_delay)] ++
           (f2 ++ (capture_failure_screenshot (envs 2) tid n).2))) := by
  rcases hc : capture_failure_screenshot (envs 2) tid n with ⟨shot, effs2⟩
  simp [execute_step, max_retries, execute_step_go, h0, h1, h2, hc]

theorem exec_step_third_ok (envs : Nat → DriverEnv) (tid : String) (step : TestStep)
    (n : Nat) (e0 e1 : PyError) (a : ActionResult) (f0 f1 f2 : List Eff)
    (h0 : execute_action (envs 0) tid step n = (Except.error e0, f0))
    (h1 : execute_action (envs 1) tid step n = (Except.error e1, f1))
    (h2 : execute_action (envs 2) tid step n = (Except.ok a, f2)) :
    execute_step envs tid step n =
      (passedResult a 3,
       f0 ++ [Eff.sleep (some retry_delay)] ++
         (f1 ++ [Eff.sleep (some retry_delay)] ++ f2)) := by
  simp [execute_step, max_retries, execute_step_go, h0, h1, h2]

theorem ea_ok_fields (env : DriverEnv) (tid : String) (step : TestStep) (n : Nat)
    (a : ActionResult) (effs : List Eff)
    (h : execute_action env tid step n = (Except.ok a, effs)) :
    a.duration = some 0 ∧ a.timestamp = some 0 := by
  unfold execute_action at h
  repeat' split at h
  all_goals injection h with h1 h2
  all_goals first
    | exact (Except.noConfusion h1)
    | (injection h1 with h3; subst h3; exact ⟨rfl, rfl⟩)

theorem go_status (envs : Nat → DriverEnv) (tid : String) (step : TestStep) (n : Nat)
    (r att : Nat) :
    (execute_step_go envs tid step n r att).1.status = "passed" ∨
    (execute_step_go envs tid step n r att).1.status = "failed" := by
  induction r generalizing att with
  | zero =>
    rcases h : execute_action (envs att) tid step n with ⟨r0, f0⟩
    cases r0 with
    | ok a => left; simp [execute_step_go, h, passedResult]
    | error e =>
      rcases hc : capture_failure_screenshot (envs att) tid n with ⟨shot, f2⟩
      right; simp [execute_step_go, h, hc, failedResult]
  | succ r ih =>
    rcases h : execute_action (envs att) tid step n with ⟨r0, f0⟩
    cases r0 with
    | ok a => left; simp [execute_step_go, h, passedResult]
    | error e =>
      rcases hr : execute_step_go envs tid step n r (att + 1) with ⟨res, f2⟩
      have h2 := ih (att + 1)
      rw [hr] at h2
      simp at h2
      simpa [execute_step_go, h, hr] using h2

theorem go_attempt_le (envs : Nat → DriverEnv) (tid : String) (step : TestStep) (n : Nat)
    (r att : Nat) :
    (execute_step_go envs tid step n r att).1.attempt ≤ att + r + 1 := by
  induction r generalizing att with
  | zero =>
    rcases h : execute_action (envs att) tid step n with ⟨r0, f0⟩
    cases r0 with
    | ok a => simp [execute_step_go, h, passedResult]
    | error e =>
      rcases hc : capture_failure_screenshot (envs att) tid n with ⟨shot, f2⟩
      simp [execute_step_go, h, hc, failedResult]
  | succ r ih =>
    rcases h : execute_action (envs att) tid step n with ⟨r0, f0⟩
    cases r0 with
    | ok a => simp [execute_step_go, h, passedResult]
    | error e =>
      rcases hr : execute_step_go envs tid step n r (att + 1) with ⟨res, f2⟩
      have h2 := ih (att + 1)
      rw [hr] at h2
      simp at h2
      simp [execute_step_go, h, hr]
      omega

theorem go_fields (envs : Nat → DriverEnv) (tid : String) (step : TestStep) (n : Nat)
    (r att : Nat) :
    (execute_step_go envs tid step n r att).1.timestamp.isSome = true ∧
    ((execute_step_go envs tid step n r att).1.status = "passed" →
      (execute_step_go envs tid step n r att).1.duration.isSome = true) ∧
    ((execute_step_go envs tid step n r att).1.status = "failed" →
      (execute_step_go envs tid step n r att).1.duration = none) := by
  induction r generalizing att with
  | zero =>
    rcases h : execute_action (envs att) tid step n with ⟨r0, f0⟩
    cases r0 with
    | ok a =>
      have hf := ea_ok_fields (envs att) tid step n a f0 h
      simp [execute_step_go, h, passedResult, hf.1, hf.2]
    | error e =>
      rcases hc : capture_failure_screenshot (envs att) tid n with ⟨shot, f2⟩
      simp [execute_step_go, h, hc, failedResult]
  | succ r ih =>
    rcases h : execute_action (envs att) tid step n with ⟨r0, f0⟩
    cases r0 with
    | ok a =>
      have hf := ea_ok_fields (envs att) tid step n a f0 h
      simp [execute_step_go, h, passedResult, hf.1, hf.2]
    | error e =>
      rcases hr : execute_step_go envs tid step n r (att + 1) with ⟨res, f2⟩
      have h2 := ih (att + 1)
      rw [hr] at h2
      simp at h2
      simpa [execute_step_go, h, hr] using h2
theorem run_steps_count (se : Nat → Nat → DriverEnv) (tid : String)
    (steps : List TestStep) (idx : Nat) :
    (run_steps se tid steps idx).2.1 + (run_steps se tid steps idx).2.2.1 = steps.length := by
  induction steps generalizing idx with
  | nil => simp [run_steps]
  | cons s rest ih =>
    rcases hs : execute_step (se idx) tid s idx with ⟨r, effs⟩
    rcases hr : run_steps se tid rest (idx + 1) with ⟨rs, p, f, effs2⟩
    have h2 := ih (idx + 1)
    rw [hr] at h2
    simp at h2
    cases hp : r.status == "passed" with
    | true => simp [run_steps, hs, hr, hp]; omega
    | false => simp [run_steps, hs, hr, hp]; omega

theorem run_steps_len (se : Nat → Nat → DriverEnv) (tid : String)
    (steps : List TestStep) (idx : Nat) :
    (run_steps se tid steps idx).1.length = steps.length := by
  induction steps generalizing idx with
  | nil => simp [run_steps]
  | cons s rest ih =>
    rcases hs : execute_step (se idx) tid s idx with ⟨r, effs⟩
    rcases hr : run_steps se tid rest (idx + 1) with ⟨rs, p, f, effs2⟩
    have h2 := ih (idx + 1)
    rw [hr] at h2
    simp at h2
    cases hp : r.status == "passed" with
    | true => simp [run_steps, hs, hr, hp, h2]
    | false => simp [run_steps, hs, hr, hp, h2]

/-- Driver oracle whose operations all succeed; located elements have
visible text `t`. -/
def okDriver (t : String) : DriverEnv :=
  { navOk := fun _ => Except.ok (), waitVisible := fun _ _ => Except.ok t,
    clickOk := fun _ => Except.ok (), typeOk := fun _ _ => Except.ok (),
    shotOk := fun _ => Except.ok () }

/-- Run oracle whose driver construction itself faults. -/
def driverlessEnv : RunEnv :=
  { createDriver := Except.error (PyError.webDriverException "session not created"),
    sessionId := "sess-1", initialNav := Except.ok (),
    stepEnvs := fun _ _ => okDriver "x", errorShot := Except.ok (),
    quitOk := Except.ok () }

/-- Claim C1: for every run whose TestResult status is PASS or FAIL,
steps_executed equals steps_passed + steps_failed; for every run whose
status is ERROR, steps_executed, steps_passed and steps_failed are all 0. -/
theorem claim_C1 (env : RunEnv) (req : TestRequest) (reg : List String) :
    (((execute_test env req reg).result.status = "PASS" ∨
      (execute_test env req reg).result.status = "FAIL") →
      (execute_test env req reg).result.steps_executed =
        (execute_test env req reg).result.steps_passed +
          (execute_test env req reg).result.steps_failed) ∧
    ((execute_test env req reg).result.status = "ERROR" →
      (execute_test env req reg).result.steps_executed = 0 ∧
      (execute_test env req reg).result.steps_passed = 0 ∧
      (execute_test env req reg).result.steps_failed = 0) := by
  cases hc : env.createDriver with
  | error e => simp [execute_test, hc, error_result]
  | ok u =>
    cases hn : env.initialNav with
    | error e =>
      cases hs : env.errorShot with
      | ok v => simp [execute_test, hc, hn, hs, error_result]
      | error e2 => simp [execute_test, hc, hn, hs, error_result]
    | ok v =>
      rcases hr : run_steps env.stepEnvs req.test_id req.steps 1 with ⟨rs, p, f, effs2⟩
      have hcount := run_steps_count env.stepEnvs req.test_id req.steps 1
      rw [hr] at hcount
      simp at hcount
      by_cases hf : f = 0
      · simp [execute_test, hc, hn, hr, hf]
        omega
      · simp [execute_test, hc, hn, hr, hf]
        omega

/-- Witness for C1 at a concrete ERROR run. -/
theorem claim_C1_witness :
    (execute_test driverlessEnv { test_id := "t", url := "http://x", steps := [] } []).result.status = "ERROR" ∧
    (execute_test driverlessEnv { test_id := "t", url := "http://x", steps := [] } []).result.steps_executed = 0 ∧
    (execute_test driverlessEnv { test_id := "t", url := "http://x", steps := [] } []).result.steps_passed = 0 ∧
    (execute_test driverlessEnv { test_id := "t", url := "http://x", steps := [] } []).result.steps_failed = 0 :=
  ⟨rfl, (claim_C1 driverlessEnv { test_id := "t", url := "http://x", steps := [] } []).2 rfl⟩

/-- Claim C2: for every step and every fault raised during its action
execution, `execute_step` returns a StepResult whose status is `passed` or
`failed`; faults are contained by the retry loop and never escape to the
Runner (the embedded `execute_step` is total over every driver oracle). -/
theorem claim_C2 (envs : Nat → DriverEnv) (test_id : String) (step : TestStep) (n : Nat) :
    (execute_step envs test_id step n).1.status = "passed" ∨
    (execute_step envs test_id step n).1.status = "failed" :=
  go_status envs test_id step n max_retries 0
theorem listStarts_self_append (l m : List Char) : listStarts l (l ++ m) = true := by
  induction l with
  | nil => rfl
  | cons a as ih => simp [listStarts, ih]

theorem strEnds_append (s t : String) : strEnds (s ++ t) t = true := by
  have hd : (s ++ t).data = s.data ++ t.data := by
    cases s; cases t; rfl
  simp [strEnds, hd, List.reverse_append, listStarts_self_append]

/-- Driver oracle where every operation faults: elements never become
visible, the driver cannot navigate, click, type or save screenshots. -/
def downDriver : DriverEnv :=
  { navOk := fun _ => Except.error (PyError.webDriverException "net::ERR_CONNECTION"),
    waitVisible := fun _ _ => Except.error (PyError.timeoutException "element not visible"),
    clickOk := fun _ => Except.error (PyError.webDriverException "no such element"),
    typeOk := fun _ _ => Except.error (PyError.webDriverException "no such element"),
    shotOk := fun _ => Except.error (PyError.webDriverException "session deleted") }

/-- Like `downDriver`, but screenshots still succeed. -/
def downDriverShotOk : DriverEnv :=
  { downDriver with shotOk := fun _ => Except.ok () }

/-- A click step on a present selector. -/
def clickStep : TestStep := { action := "click", selector := some "#btn" }

/-- Claim C3 counterexample: a click step whose action faults on all 3
attempts while the failure-screenshot capture itself also faults yields a
failed StepResult with attempt 3 and a null screenshot path, contradicting
the claimed always non-null `_FAILED.png` path. -/
theorem claim_C3_counterexample :
    (execute_step (fun _ => downDriver) "t3" clickStep 1).1.status = "failed" ∧
    (execute_step (fun _ => downDriver) "t3" clickStep 1).1.attempt = 3 ∧
    (execute_step (fun _ => downDriver) "t3" clickStep 1).1.screenshot = none :=
  ⟨rfl, rfl, rfl⟩

/-- Claim C3 (amended): for every step whose action faults on all 3
attempts, `execute_step` returns a failed StepResult with attempt 3, an
error message and an error kind and — provided the failure-screenshot
capture itself succeeds — a non-null screenshot path ending in
`_FAILED.png`; the Runner produces one StepResult per step of the request,
so remaining steps are still executed. -/
theorem claim_C3_amended (envs : Nat → DriverEnv) (tid : String) (step : TestStep)
    (n : Nat) (e0 e1 e2 : PyError) (f0 f1 f2 : List Eff)
    (se : Nat → Nat → DriverEnv) (tid2 : String) (steps : List TestStep) (idx : Nat)
    (h0 : execute_action (envs 0) tid step n = (Except.error e0, f0))
    (h1 : execute_action (envs 1) tid step n = (Except.error e1, f1))
    (h2 : execute_action (envs 2) tid step n = (Except.error e2, f2))
    (hshot : (envs 2).shotOk (fail_shot_path tid n) = Except.ok ()) :
    (execute_step envs tid step n).1.status = "failed" ∧
    (execute_step envs tid step n).1.attempt = 3 ∧
    (execute_step envs tid step n).1.error = some (pyMsg e2) ∧
    (execute_step envs tid step n).1.error_type = some (pyName e2) ∧
    (execute_step envs tid step n).1.screenshot = some (fail_shot_path tid n) ∧
    strEnds (fail_shot_path tid n) "_FAILED.png" = true ∧
    (run_steps se tid2 steps idx).1.length = steps.length := by
  have hall := exec_step_all_fail envs tid step n e0 e1 e2 f0 f1 f2 h0 h1 h2
  have hcap : capture_failure_screenshot (envs 2) tid n =
      (some (fail_shot_path tid n), [Eff.shot (fail_shot_path tid n)]) := by
    simp [capture_failure_screenshot, hshot]
  rw [hcap] at hall
  have hend : strEnds (fail_shot_path tid n) "_FAILED.png" = true :=
    strEnds_append (SCREENSHOTS_DIR ++ "/" ++ tid ++ "_step_" ++ toString n) "_FAILED.png"
  refine ⟨?_, ?_, ?_, ?_, ?_, hend, run_steps_len se tid2 steps idx⟩ <;>
    simp [hall, failedResult]

/-- Witness for the amended C3 at a concrete environment. -/
theorem claim_C3_amended_witness :
    (execute_step (fun _ => downDriverShotOk) "t3" clickStep 1).1.status = "failed" ∧
    (execute_step (fun _ => downDriverShotOk) "t3" clickStep 1).1.attempt = 3 ∧
    (execute_step (fun _ => downDriverShotOk) "t3" clickStep 1).1.error =
      some (pyMsg (PyError.timeoutException "element not visible")) ∧
    (execute_step (fun _ => downDriverShotOk) "t3" clickStep 1).1.error_type =
      some (pyName (PyError.timeoutException "element not visible")) ∧
    (execute_step (fun _ => downDriverShotOk) "t3" clickStep 1).1.screenshot =
      some (fail_shot_path "t3" 1) ∧
    strEnds (fail_shot_path "t3" 1) "_FAILED.png" = true ∧
    (run_steps (fun _ _ => downDriverShotOk) "t3" [clickStep] 1).1.length =
      [clickStep].length :=
  claim_C3_amended (fun _ => downDriverShotOk) "t3" clickStep 1
    (PyError.timeoutException "element not visible")
    (PyError.timeoutException "element not visible")
    (PyError.timeoutException "element not visible") [] [] []
    (fun _ _ => downDriverShotOk) "t3" [clickStep] 1 rfl rfl rfl rfl

/-- Claim C4: the retry policy performs at most 3 total attempts with a
fixed 2-second inter-attempt delay and no backoff; a step whose action
faults on attempts 1 and 2 but succeeds on attempt 3 yields a passed
StepResult with attempt 3, and no failure screenshot is produced (the event
trace is exactly the three attempts' own events separated by the two fixed
2-second sleeps, and the result's screenshot field is the successful
action's own). -/
theorem claim_C4 (envs : Nat → DriverEnv) (tid : String) (step : TestStep) (n : Nat)
    (e0 e1 : PyError) (a : ActionResult) (f0 f1 f2 : List Eff)
    (envs2 : Nat → DriverEnv) (tid2 : String) (step2 : TestStep) (n2 : Nat)
    (h0 : execute_action (envs 0) tid step n = (Except.error e0, f0))
    (h1 : execute_action (envs 1) tid step n = (Except.error e1, f1))
    (h2 : execute_action (envs 2) tid step n = (Except.ok a, f2)) :
    (execute_step envs tid step n).1.status = "passed" ∧
    (execute_step envs tid step n).1.attempt = 3 ∧
    (execute_step envs tid step n).2 =
      f0 ++ [Eff.sleep (some retry_delay)] ++
        (f1 ++ [Eff.sleep (some retry_delay)] ++ f2) ∧
    retry_delay = 2 ∧
    (execute_step envs tid step n).1.screenshot = a.screenshot ∧
    (execute_step envs2 tid2 step2 n2).1.attempt ≤ 3 := by
  have h3 := exec_step_third_ok envs tid step n e0 e1 a f0 f1 f2 h0 h1 h2
  have hb := go_attempt_le envs2 tid2 step2 n2 max_retries 0
  refine ⟨?_, ?_, ?_, rfl, ?_, ?_⟩
  · simp [h3, passedResult]
  · simp [h3, passedResult]
  · simp [h3]
  · simp [h3, passedResult]
  · simpa [execute_step, max_retries] using hb

/-- Driver oracle that faults on the first two attempts and succeeds on the
third (indexed per attempt). -/
def flakyEnvs : Nat → DriverEnv :=
  fun i => if i < 2 then downDriver else okDriver "hello"

/-- Witness for C4 at a concrete flaky environment. -/
theorem claim_C4_witness :
    (execute_step flakyEnvs "t4" clickStep 1).1.status = "passed" ∧
    (execute_step flakyEnvs "t4" clickStep 1).1.attempt = 3 ∧
    (execute_step flakyEnvs "t4" clickStep 1).2 =
      ([] : List Eff) ++ [Eff.sleep (some retry_delay)] ++
        (([] : List Eff) ++ [Eff.sleep (some retry_delay)] ++ ([] : List Eff)) ∧
    retry_delay = 2 ∧
    (execute_step flakyEnvs "t4" clickStep 1).1.screenshot =
      (genericResult clickStep 1).screenshot ∧
    (execute_step flakyEnvs "t4" clickStep 1).1.attempt ≤ 3 :=
  claim_C4 flakyEnvs "t4" clickStep 1
    (PyError.timeoutException "element not visible")
    (PyError.timeoutException "element not visible")
    (genericResult clickStep 1) [] [] []
    flakyEnvs "t4" clickStep 1 rfl rfl rfl

/-- Claim C10: if capturing the failure screenshot on the final failed
attempt itself faults, that fault is contained: the step still returns a
failed StepResult with attempt 3, but its screenshot path is null. -/
theorem claim_C10 (envs : Nat → DriverEnv) (tid : String) (step : TestStep) (n : Nat)
    (e0 e1 e2 e3 : PyError) (f0 f1 f2 : List Eff)
    (h0 : execute_action (envs 0) tid step n = (Except.error e0, f0))
    (h1 : execute_action (envs 1) tid step n = (Except.error e1, f1))
    (h2 : execute_action (envs 2) tid step n = (Except.error e2, f2))
    (hshot : (envs 2).shotOk (fail_shot_path tid n) = Except.error e3) :
    (execute_step envs tid step n).1.status = "failed" ∧
    (execute_step envs tid step n).1.attempt = 3 ∧
    (execute_step envs tid step n).1.screenshot = none := by
  have hall := exec_step_all_fail envs tid step n e0 e1 e2 f0 f1 f2 h0 h1 h2
  have hcap : capture_failure_screenshot (envs 2) tid n = (none, []) := by
    simp [capture_failure_screenshot, hshot]
  rw [hcap] at hall
  refine ⟨?_, ?_, ?_⟩ <;> simp [hall, failedResult]

/-- Witness for C10 at a concrete environment where capture faults. -/
theorem claim_C10_witness :
    (execute_step (fun _ => downDriver) "t10" clickStep 2).1.status = "failed" ∧
    (execute_step (fun _ => downDriver) "t10" clickStep 2).1.attempt = 3 ∧
    (execute_step (fun _ => downDriver) "t10" clickStep 2).1.screenshot = none :=
  claim_C10 (fun _ => downDriver) "t10" clickStep 2
    (PyError.timeoutException "element not visible")
    (PyError.timeoutException "element not visible")
    (PyError.timeoutException "element not visible")
    (PyError.webDriverException "session deleted") [] [] [] rfl rfl rfl rfl
/-- A request with no steps, used by concrete run witnesses. -/
def emptyReq (tid : String) : TestRequest :=
  { test_id := tid, url := "http://example.com", steps := [] }

/-- Run oracle whose initial navigation faults; everything else succeeds. -/
def navFailEnv : RunEnv :=
  { createDriver := Except.ok (), sessionId := "sess-5",
    initialNav := Except.error (PyError.webDriverException "ERR_NAME_NOT_RESOLVED"),
    stepEnvs := fun _ _ => okDriver "x", errorShot := Except.ok (),
    quitOk := Except.ok () }

/-- Claim C5: a run in which session creation or the initial navigation
faults is not retried (at most one navigation is attempted) and produces
exactly one TestResult with status ERROR, the captured error message, all
step counters 0, an empty detailed_results list; the `_ERROR.png` path is
recorded whenever the session exists (the code assigns the path before the
capture attempt and the bare `except: pass` preserves it), which in
particular gives the claimed best-effort path whenever the session is still
usable for a screenshot; with no session there is no recorded path.  The
embedded handler is total, so the caller always receives this TestResult as
the response body. -/
theorem claim_C5 (env : RunEnv) (req : TestRequest) (reg : List String) (e : PyError)
    (h : env.createDriver = Except.error e ∨
         (env.createDriver = Except.ok () ∧ env.initialNav = Except.error e)) :
    (execute_test env req reg).result.status = "ERROR" ∧
    (execute_test env req reg).result.error_message =
      some (pyName e ++ ": " ++ pyMsg e) ∧
    (execute_test env req reg).result.steps_executed = 0 ∧
    (execute_test env req reg).result.steps_passed = 0 ∧
    (execute_test env req reg).result.steps_failed = 0 ∧
    (execute_test env req reg).result.detailed_results = [] ∧
    (env.createDriver = Except.error e →
      (execute_test env req reg).result.screenshot_url = none) ∧
    (env.createDriver = Except.ok () →
      (execute_test env req reg).result.screenshot_url =
        some (error_shot_path req.test_id)) ∧
    ((execute_test env req reg).effs.filter Eff.isNav).length ≤ 1 := by
  rcases h with hc | ⟨hc, hn⟩
  · simp [execute_test, hc, error_result, Eff.isNav]
  · cases hs : env.errorShot with
    | ok v => simp [execute_test, hc, hn, hs, error_result, Eff.isNav]
    | error e2 => simp [execute_test, hc, hn, hs, error_result, Eff.isNav]

/-- Witness for C5 at a concrete run whose initial navigation faults. -/
theorem claim_C5_witness :
    (execute_test navFailEnv (emptyReq "t5") []).result.status = "ERROR" ∧
    (execute_test navFailEnv (emptyReq "t5") []).result.screenshot_url =
      some (error_shot_path "t5") ∧
    ((execute_test navFailEnv (emptyReq "t5") []).effs.filter Eff.isNav).length ≤ 1 := by
  obtain ⟨h1, _, _, _, _, _, _, h8, h9⟩ := claim_C5 navFailEnv (emptyReq "t5") []
    (PyError.webDriverException "ERR_NAME_NOT_RESOLVED") (Or.inr ⟨rfl, rfl⟩)
  exact ⟨h1, h8 rfl, h9⟩

/-- Run oracle whose driver `quit()` faults; everything else succeeds. -/
def quitFailEnv : RunEnv :=
  { createDriver := Except.ok (), sessionId := "sess-6",
    initialNav := Except.ok (), stepEnvs := fun _ _ => okDriver "x",
    errorShot := Except.ok (),
    quitOk := Except.error (PyError.webDriverException "disconnected") }

/-- Claim C6 counterexample: a run whose driver `quit()` call faults leaves
its session entry in the registry (the deletion is skipped inside the same
`try`), so the registry does not return to its pre-request (empty) state. -/
theorem claim_C6_counterexample :
    (execute_test quitFailEnv (emptyReq "t6") []).registry = ["sess-6"] ∧
    (["sess-6"] : List String) ≠ ([] : List String) :=
  ⟨rfl, by decide⟩

/-- Claim C6 (amended): on every exit path the runner attempts to release
the acquired session; provided `driver.quit()` does not fault (and the
generated session id is fresh), the session's entry is removed and the
registry returns to its pre-request state; a faulting `quit` is swallowed
and leaves the entry registered. -/
theorem claim_C6_amended (env : RunEnv) (req : TestRequest) (reg : List String)
    (hfresh : env.sessionId ∉ reg) (hq : env.quitOk = Except.ok ()) :
    (execute_test env req reg).registry = reg := by
  have h1 : List.filter (fun s => s != env.sessionId) reg = reg := by
    apply List.filter_eq_self.mpr
    intro a ha
    simp only [bne_iff_ne, ne_eq]
    intro hEq
    exact hfresh (hEq ▸ ha)
  have hfil : List.filter (fun s => s != env.sessionId) (reg ++ [env.sessionId]) = reg := by
    rw [List.filter_append, h1]
    simp
  cases hc : env.createDriver with
  | error e => simp [execute_test, hc]
  | ok u =>
    cases hn : env.initialNav with
    | error e =>
      cases hs : env.errorShot with
      | ok v => simp [execute_test, hc, hn, hs, finalize_run, hq, hfil]
      | error e2 => simp [execute_test, hc, hn, hs, finalize_run, hq, hfil]
    | ok v =>
      rcases hr : run_steps env.stepEnvs req.test_id req.steps 1 with ⟨rs, p, f, effs2⟩
      simp [execute_test, hc, hn, hr, finalize_run, hq, hfil]

/-- Run oracle where everything succeeds. -/
def okRunEnv : RunEnv :=
  { createDriver := Except.ok (), sessionId := "sess-0",
    initialNav := Except.ok (), stepEnvs := fun _ _ => okDriver "x",
    errorShot := Except.ok (), quitOk := Except.ok () }

/-- Witness for the amended C6 at a concrete all-good run. -/
theorem claim_C6_amended_witness :
    (execute_test okRunEnv (emptyReq "t6w") []).registry = ([] : List String) :=
  claim_C6_amended okRunEnv (emptyReq "t6w") [] (by simp) rfl
/-- Claim C7: for every verify step with a value, the step passes exactly
when the value is a substring of the located element's visible text; when
the substring is absent the action raises an assertion fault on every
attempt, so the step fails with attempt 3 and an `AssertionError` kind,
distinguishable from the invalid-input (`ValueError`) and not-found
(`TimeoutException`) kinds. -/
theorem claim_C7 (env : DriverEnv) (tid : String) (sel v text : String) (n : Nat)
    (tmo : Option Int)
    (hsel : pyTruthy (some sel) = true) (hv : pyTruthy (some v) = true)
    (hvis : env.waitVisible sel (pyOrInt tmo 10) = Except.ok text) :
    (pyInStr v text = true →
      (execute_step (fun _ => env) tid
        { action := "verify", selector := some sel, value := some v,
          timeout := tmo, description := none } n).1.status = "passed") ∧
    (pyInStr v text = false →
      (execute_step (fun _ => env) tid
        { action := "verify", selector := some sel, value := some v,
          timeout := tmo, description := none } n).1.status = "failed" ∧
      (execute_step (fun _ => env) tid
        { action := "verify", selector := some sel, value := some v,
          timeout := tmo, description := none } n).1.error_type =
        some (pyName (PyError.assertionError "")) ∧
      (execute_step (fun _ => env) tid
        { action := "verify", selector := some sel, value := some v,
          timeout := tmo, description := none } n).1.attempt = 3 ∧
      pyName (PyError.assertionError "") ≠ pyName (PyError.valueError "") ∧
      pyName (PyError.assertionError "") ≠ pyName (PyError.timeoutException "")) := by
  constructor
  · intro hsub
    have hact : execute_action env tid
        { action := "verify", selector := some sel, value := some v,
          timeout := tmo, description := none } n =
        (Except.ok (genericResult
          { action := "verify", selector := some sel, value := some v,
            timeout := tmo, description := none } n), []) := by
      simp [execute_action, hsel, hvis, hv, hsub]
    have h1 := exec_step_first_ok (fun _ => env) tid _ n _ _ hact
    simp [h1, passedResult]
  · intro hsub
    have hact : execute_action env tid
        { action := "verify", selector := some sel, value := some v,
          timeout := tmo, description := none } n =
        (Except.error (PyError.assertionError
          ("Expected \x27" ++ v ++ "\x27 not found in element text: \x27"
            ++ text ++ "\x27")), []) := by
      simp [execute_action, hsel, hvis, hv, hsub]
    have hall := exec_step_all_fail (fun _ => env) tid _ n _ _ _ _ _ _ hact hact hact
    refine ⟨?_, ?_, ?_, by simp [pyName], by simp [pyName]⟩ <;>
      simp [hall, failedResult, pyName]

/-- The verify step of the spec's worked example. -/
def verifyWelcome : TestStep :=
  { action := "verify", selector := some "#m", value := some "Welcome",
    timeout := some 10, description := none }

/-- Witness for C7: value "Welcome" against element text "Welcome, User"
passes; against "Goodbye" it fails with an assertion kind. -/
theorem claim_C7_witness :
    (execute_step (fun _ => okDriver "Welcome, User") "t7" verifyWelcome 1).1.status = "passed" ∧
    (execute_step (fun _ => okDriver "Goodbye") "t7" verifyWelcome 1).1.status = "failed" ∧
    (execute_step (fun _ => okDriver "Goodbye") "t7" verifyWelcome 1).1.error_type =
      some (pyName (PyError.assertionError "")) := by
  refine ⟨?_, ?_, ?_⟩
  · exact (claim_C7 (okDriver "Welcome, User") "t7" "#m" "Welcome" "Welcome, User" 1
      (some 10) rfl rfl rfl).1 rfl
  · exact ((claim_C7 (okDriver "Goodbye") "t7" "#m" "Welcome" "Goodbye" 1
      (some 10) rfl rfl rfl).2 rfl).1
  · exact ((claim_C7 (okDriver "Goodbye") "t7" "#m" "Welcome" "Goodbye" 1
      (some 10) rfl rfl rfl).2 rfl).2.1

/-- A wait step whose value is not an integer literal. -/
def waitAbcStep : TestStep := { action := "wait", value := some "abc" }

/-- Claim C8 counterexample: a wait step whose value is `"abc"` faults
(`int("abc")` raises ValueError), so the step fails after retries — the
wait action is not failure-free and does not always yield a passed
StepResult. -/
theorem claim_C8_counterexample :
    (execute_step (fun _ => okDriver "x") "t8" waitAbcStep 1).1.status = "failed" ∧
    (execute_step (fun _ => okDriver "x") "t8" waitAbcStep 1).1.error_type =
      some "ValueError" :=
  ⟨rfl, rfl⟩

/-- Wait step constructor used to state the amended C8. -/
def mk_wait_step (v : Option String) (tmo : Option Int) (desc : Option String) : TestStep :=
  { action := "wait", selector := none, value := v, timeout := tmo, description := desc }

/-- Claim C8 (amended): the wait action sleeps for `int(value)` seconds
when the value is present and a valid non-negative integer literal, falls
back to sleeping the step's timeout when the value is absent or empty
(provided the timeout is a non-negative integer), and in those cases yields
a passed StepResult; the action faults — so the step fails after retries —
when the value is present but not a valid integer literal (`int()` raises
ValueError), when the sleep duration is negative (`time.sleep` raises
ValueError), or when the fallback timeout is null (`time.sleep(None)`
raises TypeError). -/
theorem claim_C8_amended (env : DriverEnv) (tid : String) (n : Nat)
    (v : Option String) (tmo : Option Int) (desc : Option String) :
    if pyTruthy v then
      match py_int (v.getD "") with
      | some d =>
        if d < 0 then
          (execute_step (fun _ => env) tid (mk_wait_step v tmo desc) n).1.status = "failed" ∧
          (execute_step (fun _ => env) tid (mk_wait_step v tmo desc) n).1.error_type =
            some "ValueError"
        else
          (execute_step (fun _ => env) tid (mk_wait_step v tmo desc) n).1.status = "passed" ∧
          (execute_step (fun _ => env) tid (mk_wait_step v tmo desc) n).2 = [Eff.sleep (some d)]
      | none =>
        (execute_step (fun _ => env) tid (mk_wait_step v tmo desc) n).1.status = "failed" ∧
        (execute_step (fun _ => env) tid (mk_wait_step v tmo desc) n).1.error_type =
          some "ValueError"
    else
      match tmo with
      | none =>
        (execute_step (fun _ => env) tid (mk_wait_step v tmo desc) n).1.status = "failed" ∧
        (execute_step (fun _ => env) tid (mk_wait_step v tmo desc) n).1.error_type =
          some "TypeError"
      | some t =>
        if t < 0 then
          (execute_step (fun _ => env) tid (mk_wait_step v tmo desc) n).1.status = "failed" ∧
          (execute_step (fun _ => env) tid (mk_wait_step v tmo desc) n).1.error_type =
            some "ValueError"
        else
          (execute_step (fun _ => env) tid (mk_wait_step v tmo desc) n).1.status = "passed" ∧
          (execute_step (fun _ => env) tid (mk_wait_step v tmo desc) n).2 =
            [Eff.sleep (some t)] := by
  by_cases hv : pyTruthy v = true
  · simp only [hv, if_true]
    cases hd : py_int (v.getD "") with
    | some d =>
      dsimp only
      by_cases hneg : d < 0
      · rw [if_pos hneg]
        have hact : execute_action env tid (mk_wait_step v tmo desc) n =
            (Except.error (PyError.valueError "sleep length must be non-negative"), []) := by
          simp [execute_action, mk_wait_step, hv, hd, hneg]
        have hall := exec_step_all_fail (fun _ => env) tid _ n _ _ _ _ _ _ hact hact hact
        constructor <;> simp [hall, failedResult, pyName]
      · rw [if_neg hneg]
        have hact : execute_action env tid (mk_wait_step v tmo desc) n =
            (Except.ok (genericResult (mk_wait_step v tmo desc) n), [Eff.sleep (some d)]) := by
          simp [execute_action, mk_wait_step, hv, hd, hneg]
        have h1 := exec_step_first_ok (fun _ => env) tid _ n _ _ hact
        simp [h1, passedResult]
    | none =>
      have hact : execute_action env tid (mk_wait_step v tmo desc) n =
          (Except.error (PyError.valueError
            ("invalid literal for int() with base 10: \x27" ++ v.getD "" ++ "\x27")), []) := by
        simp [execute_action, mk_wait_step, hv, hd]
      have hall := exec_step_all_fail (fun _ => env) tid _ n _ _ _ _ _ _ hact hact hact
      constructor <;> simp [hall, failedResult, pyName]
  · have hv2 : pyTruthy v = false := by
      cases hb : pyTruthy v
      · rfl
      · exact absurd hb hv
    simp only [hv2, Bool.false_eq_true, if_false]
    cases tmo with
    | none =>
      have hact : execute_action env tid (mk_wait_step v none desc) n =
          (Except.error (PyError.typeError
            "an integer is required (got type NoneType)"), []) := by
        simp [execute_action, mk_wait_step, hv2]
      have hall := exec_step_all_fail (fun _ => env) tid _ n _ _ _ _ _ _ hact hact hact
      constructor <;> simp [hall, failedResult, pyName]
    | some t =>
      dsimp only
      by_cases hneg : t < 0
      · rw [if_pos hneg]
        have hact : execute_action env tid (mk_wait_step v (some t) desc) n =
            (Except.error (PyError.valueError "sleep length must be non-negative"), []) := by
          simp [execute_action, mk_wait_step, hv2, hneg]
        have hall := exec_step_all_fail (fun _ => env) tid _ n _ _ _ _ _ _ hact hact hact
        constructor <;> simp [hall, failedResult, pyName]
      · rw [if_neg hneg]
        have hact : execute_action env tid (mk_wait_step v (some t) desc) n =
            (Except.ok (genericResult (mk_wait_step v (some t) desc) n),
             [Eff.sleep (some t)]) := by
          simp [execute_action, mk_wait_step, hv2, hneg]
        have h1 := exec_step_first_ok (fun _ => env) tid _ n _ _ hact
        simp [h1, passedResult]

/-- Claim C9 counterexample: a failed StepResult carries no `duration` key,
refuting that every StepResult contains a duration (it does carry a
timestamp). -/
theorem claim_C9_counterexample :
    (execute_step (fun _ => downDriver) "t9" clickStep 1).1.status = "failed" ∧
    (execute_step (fun _ => downDriver) "t9" clickStep 1).1.duration = none ∧
    (execute_step (fun _ => downDriver) "t9" clickStep 1).1.timestamp.isSome = true :=
  ⟨rfl, rfl, rfl⟩

/-- Claim C9 (amended): every StepResult returned by the Step Executor
contains a timestamp; a StepResult with status passed also contains a
duration; a StepResult with status failed has no duration key. -/
theorem claim_C9_amended (envs : Nat → DriverEnv) (tid : String) (step : TestStep)
    (n : Nat) :
    (execute_step envs tid step n).1.timestamp.isSome = true ∧
    ((execute_step envs tid step n).1.status = "passed" →
      (execute_step envs tid step n).1.duration.isSome = true) ∧
    ((execute_step envs tid step n).1.status = "failed" →
      (execute_step envs tid step n).1.duration = none) :=
  go_fields envs tid step n max_retries 0

/-- Witness for the amended C9 at concrete passed and failed steps. -/
theorem claim_C9_amended_witness :
    (execute_step (fun _ => okDriver "x") "t9a" clickStep 1).1.timestamp.isSome = true ∧
    (execute_step (fun _ => okDriver "x") "t9a" clickStep 1).1.duration.isSome = true ∧
    (execute_step (fun _ => downDriver) "t9b" clickStep 1).1.duration = none :=
  ⟨(claim_C9_amended (fun _ => okDriver "x") "t9a" clickStep 1).1,
   (claim_C9_amended (fun _ => okDriver "x") "t9a" clickStep 1).2.1 rfl,
   (claim_C9_amended (fun _ => downDriver) "t9b" clickStep 1).2.2 rfl⟩
/-- Witness for the amended C8 at a concrete integer-valued wait step. -/
theorem claim_C8_amended_witness :
    (execute_step (fun _ => okDriver "x") "t8w" (mk_wait_step (some "5") (some 10) none) 1).1.status = "passed" ∧
    (execute_step (fun _ => okDriver "x") "t8w" (mk_wait_step (some "5") (some 10) none) 1).2 = [Eff.sleep (some 5)] := by
  have h := claim_C8_amended (okDriver "x") "t8w" 1 (some "5") (some 10) none
  rw [show pyTruthy (some "5") = true from rfl] at h
  rw [show py_int ((some "5").getD "") = some (5 : Int) from rfl] at h
  simpa using h
